import Mathlib

/-!
Shallow embedding of the bitcoin transaction-chain fixture (src/src/main.rs).

External library primitives (address derivation, sighash computation, ECDSA
signing, DER encoding, transaction serialization, txid parsing) are modelled
as an uninterpreted bundle of functions, `Libs`; the remote node is an oracle
of RPC responses.  The repository's own logic — the transaction builders
`create_first_transaction` / `create_second_transaction`, the wallet
bootstrap `initialize_wallet`, and the chain primer `ensure_blocks_mined` —
is translated statement by statement from the source.  Machine integers are
Nat with explicit wrap-around where the source does unchecked u64 arithmetic.
-/

namespace BtcTx

/-- Network tags, as in the bitcoin crate's Network enum. -/
inductive Network where
  | bitcoin
  | testnet
  | signet
  | regtest
deriving DecidableEq

/-- A transaction id; its concrete byte representation is irrelevant here. -/
structure Txid where
  repr : Nat
deriving DecidableEq

/-- A public key (abstract representation). -/
structure PublicKey where
  repr : Nat
deriving DecidableEq

/-- A private key; the source reads its .inner secret scalar when signing. -/
structure PrivateKey where
  inner : Nat
deriving DecidableEq

/-- A DER-encodable ECDSA signature (abstract representation). -/
structure EcdsaSignature where
  repr : Nat
deriving DecidableEq

/-- A derived address (abstract representation). -/
structure Address where
  repr : Nat
deriving DecidableEq

/-- One element of a script: a data push or an opcode byte. -/
inductive ScriptElem where
  | push (bytes : List Nat)
  | op (code : Nat)
deriving DecidableEq

/-- A script is a sequence of script elements (ScriptBuf::new() is []). -/
abbrev Script := List ScriptElem

/-- An RPC error, carrying the node's message text. -/
structure RpcError where
  msg : String
deriving DecidableEq

/-- An outpoint (txid, vout index) as in OutPoint::new. -/
structure OutPoint where
  txid : Txid
  vout : Nat
deriving DecidableEq

/-- A transaction input, mirroring bitcoin::TxIn. -/
structure TxIn where
  previous_output : OutPoint
  script_sig : Script
  sequence : Nat
  witness : List (List Nat)
deriving DecidableEq

/-- A transaction output, mirroring bitcoin::TxOut; value in satoshis. -/
structure TxOut where
  value : Nat
  script_pubkey : Script
deriving DecidableEq

/-- A transaction, mirroring bitcoin::Transaction. -/
structure Transaction where
  version : Int
  lock_time : Nat
  input : List TxIn
  output : List TxOut
deriving DecidableEq

/-- The bundle of external library primitives the source calls.  Each is an
uninterpreted function: the repository treats them as black boxes. -/
structure Libs where
  p2pkhAddress : PublicKey → Network → Address
  scriptPubkey : Address → Script
  pubkeyBytes : PublicKey → List Nat
  legacySignatureHash : Transaction → Nat → Script → Nat → List Nat
  signEcdsa : List Nat → Nat → EcdsaSignature
  serializeDer : EcdsaSignature → List Nat
  txidFromStr : String → Option Txid
  txidToString : Txid → String
  serializeTx : Transaction → List Nat
  hexEncode : List Nat → String

/-- Sequence::MAX, the maximum sequence number (0xFFFFFFFF). -/
def SEQUENCE_MAX : Nat := 4294967295

/-- EcdsaSighashType::All.to_u32() — the SIGHASH_ALL tag. -/
def SIGHASH_ALL : Nat := 1

/-- 2^64, the u64 modulus. -/
def U64MOD : Nat := 18446744073709551616

/-- Wrapping u64 subtraction (a, b < 2^64): what value_sats - fee does in the
source when built without overflow checks. -/
def u64sub (a b : Nat) : Nat := (a + U64MOD - b) % U64MOD

/-- address_to_script (main.rs:440-442): Address::p2pkh(pk, net).script_pubkey(). -/
def address_to_script (L : Libs) (public_key : PublicKey) (network : Network) : Script :=
  L.scriptPubkey (L.p2pkhAddress public_key network)

/-- The flat fee of 1000 satoshis used by both builders. -/
def fee : Nat := 1000

/-- The unsigned draft built in create_first_transaction (main.rs:296-319):
one input over (txid, 0) with empty script_sig and max sequence, one output
of value value_sats - fee (wrapping) paying the p2pkh script, version 2,
zero lock time. -/
def firstUnsignedTx (L : Libs) (txid : Txid) (value_sats : Nat)
    (public_key : PublicKey) : Transaction :=
  let outpoint : OutPoint := { txid := txid, vout := 0 }
  let txin : TxIn :=
    { previous_output := outpoint, script_sig := [], sequence := SEQUENCE_MAX, witness := [] }
  let txout : TxOut :=
    { value := u64sub value_sats fee,
      script_pubkey := address_to_script L public_key Network.regtest }
  { version := 2, lock_time := 0, input := [txin], output := [txout] }

/-- The digest signed in create_first_transaction (main.rs:321-332): the
legacy signature hash of the draft at input index 0, with the p2pkh script
as script code and sighash type ALL. -/
def firstSighash (L : Libs) (txid : Txid) (value_sats : Nat)
    (public_key : PublicKey) : List Nat :=
  let script_code := address_to_script L public_key Network.regtest
  L.legacySignatureHash (firstUnsignedTx L txid value_sats public_key) 0 script_code SIGHASH_ALL

/-- The unlocking script assembled in create_first_transaction
(main.rs:333-345): push(DER(sig) ++ [sighash byte]), then push(pubkey bytes). -/
def firstScriptSig (L : Libs) (txid : Txid) (value_sats : Nat)
    (private_key : PrivateKey) (public_key : PublicKey) : Script :=
  let signature := L.signEcdsa (firstSighash L txid value_sats public_key) private_key.inner
  let sig_ser := L.serializeDer signature ++ [SIGHASH_ALL]
  [ScriptElem.push sig_ser, ScriptElem.push (L.pubkeyBytes public_key)]

/-- The complete first transaction (main.rs:347): the draft with the
unlocking script attached to input 0. -/
def firstBuiltTx (L : Libs) (txid : Txid) (value_sats : Nat)
    (private_key : PrivateKey) (public_key : PublicKey) : Transaction :=
  let tx := firstUnsignedTx L txid value_sats public_key
  let script_sig := firstScriptSig L txid value_sats private_key public_key
  { tx with
    input := match tx.input with
      | [] => []
      | txin :: rest => { txin with script_sig := script_sig } :: rest }

/-- One vout entry of a get_raw_transaction_info response; value in satoshis. -/
structure TxOutEntry where
  value : Nat
deriving DecidableEq

/-- A get_raw_transaction_info response (only the vout list is read). -/
structure RawTxResponse where
  vout : List TxOutEntry
deriving DecidableEq

/-- The node oracle for the two RPC calls a builder makes. -/
structure RpcNode where
  get_raw_transaction_info : Txid → Except RpcError RawTxResponse
  send_raw_transaction : String → Except RpcError Txid

/-- One RPC call, recorded in the order the builder issues it. -/
inductive RpcCall where
  | get_raw_transaction_info (txid : Txid)
  | send_raw_transaction (tx_hex : String)
deriving DecidableEq

/-- The observable result of a builder run: the returned txid string, a
propagated RPC error, or a Rust panic (unwrap failure / out-of-bounds index). -/
inductive BuildResult where
  | ok (txid : String)
  | err (e : RpcError)
  | panicked
deriving DecidableEq

/-- create_first_transaction (main.rs:280-358), returning its result together
with the trace of RPC calls issued.  Txid::from_str(...).unwrap() panics when
the string does not parse; tx_info.vout[0] panics when vout is empty. -/
def create_first_transaction (L : Libs) (rpc : RpcNode) (coinbase_txid : String)
    (private_key : PrivateKey) (public_key : PublicKey) : BuildResult × List RpcCall :=
  match L.txidFromStr coinbase_txid with
  | none => (BuildResult.panicked, [])
  | some txid =>
    match rpc.get_raw_transaction_info txid with
    | Except.error e => (BuildResult.err e, [RpcCall.get_raw_transaction_info txid])
    | Except.ok tx_info =>
      match tx_info.vout with
      | [] => (BuildResult.panicked, [RpcCall.get_raw_transaction_info txid])
      | out0 :: _ =>
        let value_sats := out0.value
        let tx := firstBuiltTx L txid value_sats private_key public_key
        let tx_hex := L.hexEncode (L.serializeTx tx)
        match rpc.send_raw_transaction tx_hex with
        | Except.error e =>
          (BuildResult.err e,
           [RpcCall.get_raw_transaction_info txid, RpcCall.send_raw_transaction tx_hex])
        | Except.ok txid2 =>
          (BuildResult.ok (L.txidToString txid2),
           [RpcCall.get_raw_transaction_info txid, RpcCall.send_raw_transaction tx_hex])

/-- The unsigned draft built in create_second_transaction (main.rs:376-399);
the source duplicates the first builder's code verbatim. -/
def secondUnsignedTx (L : Libs) (txid : Txid) (value_sats : Nat)
    (public_key : PublicKey) : Transaction :=
  let outpoint : OutPoint := { txid := txid, vout := 0 }
  let txin : TxIn :=
    { previous_output := outpoint, script_sig := [], sequence := SEQUENCE_MAX, witness := [] }
  let txout : TxOut :=
    { value := u64sub value_sats fee,
      script_pubkey := address_to_script L public_key Network.regtest }
  { version := 2, lock_time := 0, input := [txin], output := [txout] }

/-- The digest signed in create_second_transaction (main.rs:401-412). -/
def secondSighash (L : Libs) (txid : Txid) (value_sats : Nat)
    (public_key : PublicKey) : List Nat :=
  let script_code := address_to_script L public_key Network.regtest
  L.legacySignatureHash (secondUnsignedTx L txid value_sats public_key) 0 script_code SIGHASH_ALL

/-- The unlocking script assembled in create_second_transaction (main.rs:413-425). -/
def secondScriptSig (L : Libs) (txid : Txid) (value_sats : Nat)
    (private_key : PrivateKey) (public_key : PublicKey) : Script :=
  let signature := L.signEcdsa (secondSighash L txid value_sats public_key) private_key.inner
  let sig_ser := L.serializeDer signature ++ [SIGHASH_ALL]
  [ScriptElem.push sig_ser, ScriptElem.push (L.pubkeyBytes public_key)]

/-- The complete second transaction (main.rs:427). -/
def secondBuiltTx (L : Libs) (txid : Txid) (value_sats : Nat)
    (private_key : PrivateKey) (public_key : PublicKey) : Transaction :=
  let tx := secondUnsignedTx L txid value_sats public_key
  let script_sig := secondScriptSig L txid value_sats private_key public_key
  { tx with
    input := match tx.input with
      | [] => []
      | txin :: rest => { txin with script_sig := script_sig } :: rest }

/-- create_second_transaction (main.rs:360-438), returning its result together
with the trace of RPC calls issued. -/
def create_second_transaction (L : Libs) (rpc : RpcNode) (first_txid : String)
    (private_key : PrivateKey) (public_key : PublicKey) : BuildResult × List RpcCall :=
  match L.txidFromStr first_txid with
  | none => (BuildResult.panicked, [])
  | some txid =>
    match rpc.get_raw_transaction_info txid with
    | Except.error e => (BuildResult.err e, [RpcCall.get_raw_transaction_info txid])
    | Except.ok tx_info =>
      match tx_info.vout with
      | [] => (BuildResult.panicked, [RpcCall.get_raw_transaction_info txid])
      | out0 :: _ =>
        let value_sats := out0.value
        let tx := secondBuiltTx L txid value_sats private_key public_key
        let tx_hex := L.hexEncode (L.serializeTx tx)
        match rpc.send_raw_transaction tx_hex with
        | Except.error e =>
          (BuildResult.err e,
           [RpcCall.get_raw_transaction_info txid, RpcCall.send_raw_transaction tx_hex])
        | Except.ok txid2 =>
          (BuildResult.ok (L.txidToString txid2),
           [RpcCall.get_raw_transaction_info txid, RpcCall.send_raw_transaction tx_hex])

/-- Whether the first character list starts the second one. -/
def charsStartWith : List Char → List Char → Bool
  | [], _ => true
  | _ :: _, [] => false
  | c :: cs, d :: ds => c == d && charsStartWith cs ds

/-- Whether the first character list occurs inside the second one. -/
def charsContain (needle : List Char) : List Char → Bool
  | [] => needle.isEmpty
  | c :: rest => charsStartWith needle (c :: rest) || charsContain needle rest

/-- Substring test, modelling Rust's str::contains. -/
def strContains (hay needle : String) : Bool :=
  charsContain needle.data hay.data

/-- The node oracle for the wallet-bootstrap RPC calls. -/
structure WalletNode where
  create_wallet : String → Except RpcError Unit
  load_wallet : String → Except RpcError Unit
  list_wallets : Except RpcError (List String)

/-- initialize_wallet (main.rs:188-235): try create; on an "already exists"
error try load, treating "already loaded" as success and otherwise falling
back to list_wallets; on any other create error fall back to list_wallets;
propagate the branch's error when the wallet is not listed. -/
def initialize_wallet (client : WalletNode) : Except RpcError Unit :=
  match client.create_wallet "mywallet" with
  | Except.ok _ => Except.ok ()
  | Except.error e =>
    if strContains e.msg "already exists" then
      match client.load_wallet "mywallet" with
      | Except.ok _ => Except.ok ()
      | Except.error load_err =>
        if strContains load_err.msg "already loaded" then
          Except.ok ()
        else
          match client.list_wallets with
          | Except.error le => Except.error le
          | Except.ok wallets =>
            if wallets.contains "mywallet" then Except.ok ()
            else Except.error load_err
    else
      match client.list_wallets with
      | Except.error le => Except.error le
      | Except.ok wallets =>
        if wallets.contains "mywallet" then Except.ok ()
        else Except.error e

/-- An address whose network tag has not yet been checked; require_network
returns none when the check fails (the source then unwraps, i.e. panics). -/
structure UncheckedAddress where
  require_network : Network → Option Address

/-- The node oracle for the chain-primer RPC calls. -/
structure MiningNode where
  get_block_count : Except RpcError Nat
  get_new_address : Except RpcError UncheckedAddress
  generate_to_address : Nat → Address → Except RpcError (List Nat)

/-- Result of ensure_blocks_mined: success, a propagated RPC error, or a
panic from require_network(...).unwrap(). -/
inductive MineResult where
  | ok
  | err (e : RpcError)
  | panicked

/-- ensure_blocks_mined (main.rs:237-255), returning its result together with
the trace of generate_to_address calls (block count, target address). -/
def ensure_blocks_mined (rpc : MiningNode) : MineResult × List (Nat × Address) :=
  match rpc.get_block_count with
  | Except.error e => (MineResult.err e, [])
  | Except.ok block_count =>
    if block_count < 101 then
      match rpc.get_new_address with
      | Except.error e => (MineResult.err e, [])
      | Except.ok address_uncheck =>
        match address_uncheck.require_network Network.regtest with
        | none => (MineResult.panicked, [])
        | some address =>
          let blocks_needed := 101 - block_count
          match rpc.generate_to_address blocks_needed address with
          | Except.error e => (MineResult.err e, [(blocks_needed, address)])
          | Except.ok _ => (MineResult.ok, [(blocks_needed, address)])
    else
      (MineResult.ok, [])

/-- A numeric tag per network, for the concrete demonstration instance. -/
def netCode : Network → Nat
  | Network.bitcoin => 0
  | Network.testnet => 1
  | Network.signet => 2
  | Network.regtest => 3

/-- A concrete instantiation of the library primitives, used to evaluate the
embedded code on explicit inputs. -/
def demoLibs : Libs :=
  { p2pkhAddress := fun pk n => ⟨pk.repr * 4 + netCode n⟩
    scriptPubkey := fun a =>
      [ScriptElem.op 118, ScriptElem.op 169, ScriptElem.push [a.repr % 256],
       ScriptElem.op 136, ScriptElem.op 172]
    pubkeyBytes := fun pk => [2, pk.repr % 256]
    legacySignatureHash := fun t i s ty => [t.input.length, i, s.length, ty]
    signEcdsa := fun d k => ⟨d.foldl (fun a b => a + b) k⟩
    serializeDer := fun s => [48, s.repr % 256]
    txidFromStr := fun s => if s.isEmpty then none else some ⟨s.length⟩
    txidToString := fun _ => "sent"
    serializeTx := fun t => [t.input.length, t.output.length]
    hexEncode := fun _ => "hex" }

/-- A concrete txid: what demoLibs.txidFromStr yields on "cb". -/
def demoTxid : Txid := ⟨2⟩

/-- A concrete lookup response whose single output holds 500 satoshis. -/
def demoResponse : RawTxResponse := ⟨[⟨500⟩]⟩

/-- A concrete node oracle answering every lookup with demoResponse and
accepting every broadcast. -/
def demoNode : RpcNode :=
  { get_raw_transaction_info := fun _ => Except.ok demoResponse
    send_raw_transaction := fun _ => Except.ok ⟨9⟩ }

/-- A concrete private key. -/
def demoSk : PrivateKey := ⟨7⟩

/-- A concrete public key. -/
def demoPk : PublicKey := ⟨11⟩

/-- A concrete wallet-node oracle: creation and load both fail with the
duplicate-wallet messages a node gives on a repeated run. -/
def demoWalletNode : WalletNode :=
  { create_wallet := fun _ => Except.error ⟨"Wallet mywallet already exists"⟩
    load_wallet := fun _ => Except.error ⟨"Wallet mywallet is already loaded"⟩
    list_wallets := Except.ok ["mywallet"] }

/-- A concrete mining address. -/
def demoAddress : Address := ⟨5⟩

/-- A concrete mining-node oracle reporting 42 blocks. -/
def demoMiningNode : MiningNode :=
  { get_block_count := Except.ok 42
    get_new_address := Except.ok ⟨fun _ => some demoAddress⟩
    generate_to_address := fun _ _ => Except.ok [1] }

end BtcTx

namespace BtcTx

/-- Claim C1 (code evidence): with a referenced output worth 500 satoshis and
the fixed 1000-satoshi fee (fee >= value), neither builder fails with an
insufficient-funds error; the u64 subtraction wraps to 18446744073709551116
satoshis and both builds complete and broadcast successfully. -/
theorem no_insufficient_funds_guard :
    (firstBuiltTx demoLibs demoTxid 500 demoSk demoPk).output.map TxOut.value =
      [18446744073709551116] ∧
    (secondBuiltTx demoLibs demoTxid 500 demoSk demoPk).output.map TxOut.value =
      [18446744073709551116] ∧
    (create_first_transaction demoLibs demoNode "cb" demoSk demoPk).1 =
      BuildResult.ok "sent" ∧
    (create_second_transaction demoLibs demoNode "cb" demoSk demoPk).1 =
      BuildResult.ok "sent" :=
  ⟨rfl, rfl, rfl, rfl⟩

/-- Claim C2: when the fixed fee is strictly below the referenced output's
value (and the value fits in u64), each builder's transaction has exactly one
output, of value exactly value minus fee, paying the destination's p2pkh
script. -/
theorem built_tx_single_output_value (L : Libs) (txid : Txid) (value_sats : Nat)
    (private_key : PrivateKey) (public_key : PublicKey)
    (hlo : fee < value_sats) (hhi : value_sats < U64MOD) :
    (firstBuiltTx L txid value_sats private_key public_key).output =
      [{ value := value_sats - fee,
         script_pubkey := address_to_script L public_key Network.regtest }] ∧
    (secondBuiltTx L txid value_sats private_key public_key).output =
      [{ value := value_sats - fee,
         script_pubkey := address_to_script L public_key Network.regtest }] := by
  have h : u64sub value_sats fee = value_sats - fee := by
    simp only [u64sub, U64MOD, fee] at *
    omega
  constructor
  · show [({ value := u64sub value_sats fee,
             script_pubkey := address_to_script L public_key Network.regtest } : TxOut)] = _
    rw [h]
  · show [({ value := u64sub value_sats fee,
             script_pubkey := address_to_script L public_key Network.regtest } : TxOut)] = _
    rw [h]

/-- Witness for C2 at value 5000000000 satoshis. -/
theorem built_tx_single_output_value_witness :
    (firstBuiltTx demoLibs demoTxid 5000000000 demoSk demoPk).output =
      [{ value := 4999999000,
         script_pubkey := address_to_script demoLibs demoPk Network.regtest }] :=
  (built_tx_single_output_value demoLibs demoTxid 5000000000 demoSk demoPk
    (by decide) (by decide)).1

/-- Claim C3: initialize_wallet succeeds when creation succeeds; on an
"already exists" creation error it succeeds when load succeeds or fails with
"already loaded"; on another load failure it succeeds exactly when the wallet
is listed and otherwise propagates the load error; on another creation error
it succeeds exactly when the wallet is listed and otherwise propagates the
creation error; hence on a node whose create/load errors are only the
duplicate-wallet kind — a repeated run — it always succeeds. -/
theorem initialize_wallet_cases :
    (∀ client : WalletNode,
      client.create_wallet "mywallet" = Except.ok () →
      initialize_wallet client = Except.ok ()) ∧
    (∀ (client : WalletNode) (e : RpcError),
      client.create_wallet "mywallet" = Except.error e →
      strContains e.msg "already exists" = true →
      client.load_wallet "mywallet" = Except.ok () →
      initialize_wallet client = Except.ok ()) ∧
    (∀ (client : WalletNode) (e le : RpcError),
      client.create_wallet "mywallet" = Except.error e →
      strContains e.msg "already exists" = true →
      client.load_wallet "mywallet" = Except.error le →
      strContains le.msg "already loaded" = true →
      initialize_wallet client = Except.ok ()) ∧
    (∀ (client : WalletNode) (e le : RpcError) (ws : List String),
      client.create_wallet "mywallet" = Except.error e →
      strContains e.msg "already exists" = true →
      client.load_wallet "mywallet" = Except.error le →
      strContains le.msg "already loaded" = false →
      client.list_wallets = Except.ok ws →
      initialize_wallet client =
        (if ws.contains "mywallet" then Except.ok () else Except.error le)) ∧
    (∀ (client : WalletNode) (e : RpcError) (ws : List String),
      client.create_wallet "mywallet" = Except.error e →
      strContains e.msg "already exists" = false →
      client.list_wallets = Except.ok ws →
      initialize_wallet client =
        (if ws.contains "mywallet" then Except.ok () else Except.error e)) ∧
    (∀ client : WalletNode,
      (∀ e : RpcError, client.create_wallet "mywallet" = Except.error e →
        strContains e.msg "already exists" = true) →
      (∀ le : RpcError, client.load_wallet "mywallet" = Except.error le →
        strContains le.msg "already loaded" = true) →
      initialize_wallet client = Except.ok ()) := by
  refine ⟨?_, ?_, ?_, ?_, ?_, ?_⟩
  · intro client hc
    simp [initialize_wallet, hc]
  · intro client e hc hE hl
    simp [initialize_wallet, hc, hE, hl]
  · intro client e le hc hE hl hL
    simp [initialize_wallet, hc, hE, hl, hL]
  · intro client e le ws hc hE hl hL hw
    simp [initialize_wallet, hc, hE, hl, hL, hw]
  · intro client e ws hc hE hw
    simp [initialize_wallet, hc, hE, hw]
  · intro client hCreate hLoad
    cases hc : client.create_wallet "mywallet" with
    | ok u => simp [initialize_wallet, hc]
    | error e =>
      have hE := hCreate e hc
      cases hl : client.load_wallet "mywallet" with
      | ok u => simp [initialize_wallet, hc, hE, hl]
      | error le =>
        have hL := hLoad le hl
        simp [initialize_wallet, hc, hE, hl, hL]

/-- Witness for C3: on a node where the wallet already exists and is already
loaded, initialize_wallet succeeds. -/
theorem initialize_wallet_cases_witness :
    initialize_wallet demoWalletNode = Except.ok () :=
  initialize_wallet_cases.2.2.1 demoWalletNode
    ⟨"Wallet mywallet already exists"⟩ ⟨"Wallet mywallet is already loaded"⟩
    rfl (by decide) rfl (by decide)

/-- Claim C4: when the block count is below 101, ensure_blocks_mined mines
exactly 101 minus the count blocks to the freshly obtained address; at or
above 101 it issues no block-generation call and returns success. -/
theorem ensure_blocks_mined_spec :
    (∀ (rpc : MiningNode) (n : Nat) (addrU : UncheckedAddress) (address : Address)
       (hashes : List Nat),
      rpc.get_block_count = Except.ok n →
      n < 101 →
      rpc.get_new_address = Except.ok addrU →
      addrU.require_network Network.regtest = some address →
      rpc.generate_to_address (101 - n) address = Except.ok hashes →
      ensure_blocks_mined rpc = (MineResult.ok, [(101 - n, address)])) ∧
    (∀ (rpc : MiningNode) (n : Nat),
      rpc.get_block_count = Except.ok n →
      101 ≤ n →
      ensure_blocks_mined rpc = (MineResult.ok, [])) := by
  constructor
  · intro rpc n addrU address hashes hc hlt ha hr hg
    simp [ensure_blocks_mined, hc, hlt, ha, hr, hg]
  · intro rpc n hc hge
    simp [ensure_blocks_mined, hc, Nat.not_lt.mpr hge]

/-- Witness for C4: with 42 existing blocks the primer mines 59 blocks to the
fresh address. -/
theorem ensure_blocks_mined_spec_witness :
    ensure_blocks_mined demoMiningNode = (MineResult.ok, [(59, demoAddress)]) :=
  ensure_blocks_mined_spec.1 demoMiningNode 42 ⟨fun _ => some demoAddress⟩
    demoAddress [1] rfl (by decide) rfl rfl rfl

/-- Claim C5: in both builders the digest that is signed is the legacy
signature hash of the unsigned draft at input index 0, with the destination's
p2pkh locking script as script code and sighash type ALL; the signature
embedded in the final script_sig is over exactly that digest. -/
theorem sighash_is_legacy_all (L : Libs) (txid : Txid) (value_sats : Nat)
    (private_key : PrivateKey) (public_key : PublicKey) :
    (firstSighash L txid value_sats public_key =
       L.legacySignatureHash (firstUnsignedTx L txid value_sats public_key) 0
         (address_to_script L public_key Network.regtest) SIGHASH_ALL ∧
     firstScriptSig L txid value_sats private_key public_key =
       [ScriptElem.push (L.serializeDer
           (L.signEcdsa (firstSighash L txid value_sats public_key) private_key.inner)
           ++ [SIGHASH_ALL]),
        ScriptElem.push (L.pubkeyBytes public_key)]) ∧
    (secondSighash L txid value_sats public_key =
       L.legacySignatureHash (secondUnsignedTx L txid value_sats public_key) 0
         (address_to_script L public_key Network.regtest) SIGHASH_ALL ∧
     secondScriptSig L txid value_sats private_key public_key =
       [ScriptElem.push (L.serializeDer
           (L.signEcdsa (secondSighash L txid value_sats public_key) private_key.inner)
           ++ [SIGHASH_ALL]),
        ScriptElem.push (L.pubkeyBytes public_key)]) :=
  ⟨⟨rfl, rfl⟩, ⟨rfl, rfl⟩⟩

/-- Claim C6: in both builders the unlocking script attached to input 0 is
exactly two pushes: the DER signature with the sighash byte appended, then
the public key bytes, in that order. -/
theorem script_sig_two_pushes (L : Libs) (txid : Txid) (value_sats : Nat)
    (private_key : PrivateKey) (public_key : PublicKey) :
    (firstBuiltTx L txid value_sats private_key public_key).input.map TxIn.script_sig =
      [[ScriptElem.push (L.serializeDer
          (L.signEcdsa (firstSighash L txid value_sats public_key) private_key.inner)
          ++ [SIGHASH_ALL]),
        ScriptElem.push (L.pubkeyBytes public_key)]] ∧
    (secondBuiltTx L txid value_sats private_key public_key).input.map TxIn.script_sig =
      [[ScriptElem.push (L.serializeDer
          (L.signEcdsa (secondSighash L txid value_sats public_key) private_key.inner)
          ++ [SIGHASH_ALL]),
        ScriptElem.push (L.pubkeyBytes public_key)]] :=
  ⟨rfl, rfl⟩

/-- Claim C7: each builder's unsigned draft has one input over (txid, 0) with
an empty unlocking script and maximum sequence, one output paying the
destination's locking script, and zero lock time. -/
theorem draft_tx_shape (L : Libs) (txid : Txid) (value_sats : Nat)
    (public_key : PublicKey) :
    ((firstUnsignedTx L txid value_sats public_key).input =
       [{ previous_output := { txid := txid, vout := 0 }, script_sig := [],
          sequence := SEQUENCE_MAX, witness := [] }] ∧
     (firstUnsignedTx L txid value_sats public_key).output =
       [{ value := u64sub value_sats fee,
          script_pubkey := address_to_script L public_key Network.regtest }] ∧
     (firstUnsignedTx L txid value_sats public_key).lock_time = 0) ∧
    ((secondUnsignedTx L txid value_sats public_key).input =
       [{ previous_output := { txid := txid, vout := 0 }, script_sig := [],
          sequence := SEQUENCE_MAX, witness := [] }] ∧
     (secondUnsignedTx L txid value_sats public_key).output =
       [{ value := u64sub value_sats fee,
          script_pubkey := address_to_script L public_key Network.regtest }] ∧
     (secondUnsignedTx L txid value_sats public_key).lock_time = 0) :=
  ⟨⟨rfl, rfl, rfl⟩, ⟨rfl, rfl, rfl⟩⟩

/-- Claim C8: address_to_script is a deterministic function of public key and
network, and in each builder the destination output's locking script and the
script code fed to the legacy sighash are byte-for-byte the same script. -/
theorem address_script_deterministic (L : Libs) (public_key : PublicKey)
    (network : Network) (txid : Txid) (value_sats : Nat) :
    (address_to_script L public_key network = address_to_script L public_key network) ∧
    ((firstUnsignedTx L txid value_sats public_key).output.map TxOut.script_pubkey =
       [address_to_script L public_key Network.regtest] ∧
     firstSighash L txid value_sats public_key =
       L.legacySignatureHash (firstUnsignedTx L txid value_sats public_key) 0
         (address_to_script L public_key Network.regtest) SIGHASH_ALL) ∧
    ((secondUnsignedTx L txid value_sats public_key).output.map TxOut.script_pubkey =
       [address_to_script L public_key Network.regtest] ∧
     secondSighash L txid value_sats public_key =
       L.legacySignatureHash (secondUnsignedTx L txid value_sats public_key) 0
         (address_to_script L public_key Network.regtest) SIGHASH_ALL) :=
  ⟨rfl, ⟨rfl, rfl⟩, ⟨rfl, rfl⟩⟩

/-- Claim C9: the two builders are the same function, at every stage — the
full RPC-observable computation, the built transaction, the unsigned draft,
the sighash and the unlocking script all coincide. -/
theorem builders_coincide :
    create_first_transaction = create_second_transaction ∧
    firstBuiltTx = secondBuiltTx ∧
    firstUnsignedTx = secondUnsignedTx ∧
    firstSighash = secondSighash ∧
    firstScriptSig = secondScriptSig :=
  ⟨rfl, rfl, rfl, rfl, rfl⟩

/-- Claim C10: both builders always spend output index 0; an unparsable txid
string or an empty vout list makes them panic; when the txid parses and the
lookup returns at least one output, the value-lookup step cannot panic. -/
theorem spend_index_and_panics :
    (∀ (L : Libs) (txid : Txid) (value_sats : Nat) (public_key : PublicKey),
       (firstUnsignedTx L txid value_sats public_key).input.map
          (fun i => i.previous_output.vout) = [0] ∧
       (secondUnsignedTx L txid value_sats public_key).input.map
          (fun i => i.previous_output.vout) = [0]) ∧
    (∀ (L : Libs) (rpc : RpcNode) (s : String) (sk : PrivateKey) (pk : PublicKey),
       L.txidFromStr s = none →
       create_first_transaction L rpc s sk pk = (BuildResult.panicked, []) ∧
       create_second_transaction L rpc s sk pk = (BuildResult.panicked, [])) ∧
    (∀ (L : Libs) (rpc : RpcNode) (s : String) (sk : PrivateKey) (pk : PublicKey)
       (txid : Txid) (resp : RawTxResponse),
       L.txidFromStr s = some txid →
       rpc.get_raw_transaction_info txid = Except.ok resp →
       resp.vout = [] →
       (create_first_transaction L rpc s sk pk).1 = BuildResult.panicked ∧
       (create_second_transaction L rpc s sk pk).1 = BuildResult.panicked) ∧
    (∀ (L : Libs) (rpc : RpcNode) (s : String) (sk : PrivateKey) (pk : PublicKey)
       (txid : Txid) (resp : RawTxResponse),
       L.txidFromStr s = some txid →
       rpc.get_raw_transaction_info txid = Except.ok resp →
       resp.vout ≠ [] →
       (create_first_transaction L rpc s sk pk).1 ≠ BuildResult.panicked ∧
       (create_second_transaction L rpc s sk pk).1 ≠ BuildResult.panicked) := by
  refine ⟨?_, ?_, ?_, ?_⟩
  · intro L txid value_sats public_key
    exact ⟨rfl, rfl⟩
  · intro L rpc s sk pk hp
    constructor
    · simp [create_first_transaction, hp]
    · simp [create_second_transaction, hp]
  · intro L rpc s sk pk txid resp hp hg hv
    constructor
    · simp [create_first_transaction, hp, hg, hv]
    · simp [create_second_transaction, hp, hg, hv]
  · intro L rpc s sk pk txid resp hp hg hv
    cases hvout : resp.vout with
    | nil => exact absurd hvout hv
    | cons o rest =>
      constructor
      · cases hs : rpc.send_raw_transaction (L.hexEncode (L.serializeTx
          (firstBuiltTx L txid o.value sk pk))) with
        | error e => simp [create_first_transaction, hp, hg, hvout, hs]
        | ok t2 => simp [create_first_transaction, hp, hg, hvout, hs]
      · cases hs : rpc.send_raw_transaction (L.hexEncode (L.serializeTx
          (secondBuiltTx L txid o.value sk pk))) with
        | error e => simp [create_second_transaction, hp, hg, hvout, hs]
        | ok t2 => simp [create_second_transaction, hp, hg, hvout, hs]

/-- Witness for C10: on concrete oracles, an empty txid string panics and a
parsable txid with a one-output lookup does not panic in the value lookup. -/
theorem spend_index_and_panics_witness :
    create_first_transaction demoLibs demoNode "" demoSk demoPk =
      (BuildResult.panicked, []) ∧
    (create_first_transaction demoLibs demoNode "cb" demoSk demoPk).1 ≠
      BuildResult.panicked :=
  ⟨(spend_index_and_panics.2.1 demoLibs demoNode "" demoSk demoPk rfl).1,
   (spend_index_and_panics.2.2.2 demoLibs demoNode "cb" demoSk demoPk demoTxid
      demoResponse rfl rfl (by decide)).1⟩

end BtcTx
